import Mathlib

/-!
Verification development for the multi-source contact-resolution engine
(files web_scraper.py, api_services.py, utils.py).

Modelling conventions:
* Python strings are Lean String / List Char; the regex character classes
  \d and \s are modelled over their ASCII fragment (Char.isDigit and the
  ASCII whitespace set), which covers every input occurring in the code
  and in the claims.
* Python float scores are modelled as rationals.  All scores produced by
  the code are sums and products of the literals 0.4, 0.3, 0.2 and the
  base weights 0.9, 0.8, 0.7, 0.6, and every comparison performed by the
  code is robust for these values, so the rational model is faithful.
* re.match with a trailing dollar anchor accepts the whole string or the
  whole string minus one final newline; both cases are modelled.
* A regex matcher is a function from a list of characters to the list of
  possible remainders, ordered by Python backtracking preference (greedy
  alternatives first); the head of the list is the match Python picks.
-/

/-- ASCII decimal digit, the fragment of the Python regex class \d
exercised by this code base. -/
def isDigitPy (c : Char) : Bool := c.isDigit

/-- ASCII whitespace, the fragment of the Python regex class \s:
space, tab, newline, carriage return, vertical tab, form feed. -/
def isSpacePy (c : Char) : Bool :=
  c = ' ' || c = '\t' || c = '\n' || c = '\r' ||
  c = Char.ofNat 11 || c = Char.ofNat 12

/-- Separator class [-.] used by the validation patterns. -/
def isSep (c : Char) : Bool := c = '-' || c = '.'

/-- Separator-or-space class [-.\s] used by the scan patterns. -/
def isSepSp (c : Char) : Bool := isSep c || isSpacePy c

/-- A backtracking matcher: the list of all remainders after a match of
the pattern at the front of the input, in Python preference order. -/
abbrev Matcher := List Char → List (List Char)

/-- Sequencing of two patterns, depth-first in preference order. -/
def mseq (a b : Matcher) : Matcher := fun l => ((a l).map b).flatten

/-- A single literal character. -/
def mChar (c : Char) : Matcher := fun l =>
  match l with
  | x :: xs => if x = c then [xs] else []
  | [] => []

/-- An optional literal character (greedy, as in Python `c?`). -/
def mCharOpt (c : Char) : Matcher := fun l =>
  match l with
  | x :: xs => if x = c then [xs, x :: xs] else [x :: xs]
  | [] => [[]]

/-- A single character from a class. -/
def mClass (p : Char → Bool) : Matcher := fun l =>
  match l with
  | x :: xs => if p x then [xs] else []
  | [] => []

/-- An optional character from a class (greedy, as in Python `[..]?`). -/
def mClassOpt (p : Char → Bool) : Matcher := fun l =>
  match l with
  | x :: xs => if p x then [xs, x :: xs] else [x :: xs]
  | [] => [[]]

/-- Zero or more characters from a class (greedy, as in Python `[..]*`):
longest consumption first. -/
def mClassStar (p : Char → Bool) : Matcher := fun l =>
  match l with
  | x :: xs => if p x then mClassStar p xs ++ [x :: xs] else [x :: xs]
  | [] => [[]]

/-- Consume exactly `n` digits, if available. -/
def takeDigits (n : Nat) (l : List Char) : Option (List Char) :=
  if (l.take n).length = n && (l.take n).all isDigitPy then some (l.drop n)
  else none

/-- Exactly `n` digits, as in Python `\d{n}`. -/
def mDigitsExact (n : Nat) : Matcher := fun l => (takeDigits n l).toList

/-- Between `a` and `b` digits, greedy (as in Python `\d{a,b}`):
larger counts preferred. -/
def mDigitsRange (a b : Nat) : Matcher := fun l =>
  (List.range (b + 1 - a)).filterMap (fun i => takeDigits (b - i) l)

/-- Validation pattern 1 of validate_phone_number, the regex
`\+?1?\d{10}` anchored at both ends ("Basic US format", weight 0.3). -/
def pat1 : Matcher :=
  mseq (mCharOpt '+') (mseq (mCharOpt '1') (mDigitsExact 10))

/-- Validation pattern 2, the regex `\+?1?\d{3}[-.]?\d{3}[-.]?\d{4}`
anchored at both ends ("Common separators", weight 0.2). -/
def pat2 : Matcher :=
  mseq (mCharOpt '+') (mseq (mCharOpt '1') (mseq (mDigitsExact 3)
    (mseq (mClassOpt isSep) (mseq (mDigitsExact 3)
      (mseq (mClassOpt isSep) (mDigitsExact 4))))))

/-- Validation pattern 3, the regex
`\+?1?\s?\(\d{3}\)\s?\d{3}[-.]?\d{4}` anchored at both ends
("(XXX) format", weight 0.3). -/
def pat3 : Matcher :=
  mseq (mCharOpt '+') (mseq (mCharOpt '1') (mseq (mClassOpt isSpacePy)
    (mseq (mChar '(') (mseq (mDigitsExact 3) (mseq (mChar ')')
      (mseq (mClassOpt isSpacePy) (mseq (mDigitsExact 3)
        (mseq (mClassOpt isSep) (mDigitsExact 4)))))))))

/-- Validation pattern 4, the regex `\+\d{1,3}\s?\d{10,14}` anchored at
both ends ("International format", weight 0.2). -/
def pat4 : Matcher :=
  mseq (mChar '+') (mseq (mDigitsRange 1 3)
    (mseq (mClassOpt isSpacePy) (mDigitsRange 10 14)))

/-- Python re.match against a pattern ending in a dollar anchor: the
pattern must consume the whole string, or all of it but one final
newline. -/
def fullMatchB (m : Matcher) (s : String) : Bool :=
  (m s.data).any (fun r => r.isEmpty || r == ['\n'])

/-- Scan pattern 1 of the phone_patterns list in search_contact_info:
`\+?1?[-.\s]?\(?\d{3}\)?[-.\s]?\d{3}[-.\s]?\d{4}` ("US format"). -/
def scan1 : Matcher :=
  mseq (mCharOpt '+') (mseq (mCharOpt '1') (mseq (mClassOpt isSepSp)
    (mseq (mCharOpt '(') (mseq (mDigitsExact 3) (mseq (mCharOpt ')')
      (mseq (mClassOpt isSepSp) (mseq (mDigitsExact 3)
        (mseq (mClassOpt isSepSp) (mDigitsExact 4)))))))))

/-- Scan pattern 2: `\+\d{1,3}[-.\s]?\d{1,4}[-.\s]?\d{1,4}[-.\s]?\d{1,9}`
("International"). -/
def scan2 : Matcher :=
  mseq (mChar '+') (mseq (mDigitsRange 1 3) (mseq (mClassOpt isSepSp)
    (mseq (mDigitsRange 1 4) (mseq (mClassOpt isSepSp)
      (mseq (mDigitsRange 1 4) (mseq (mClassOpt isSepSp)
        (mDigitsRange 1 9)))))))

/-- Scan pattern 3: `\(\d{3}\)\s*\d{3}[-.]?\d{4}` ("(XXX) XXX-XXXX"). -/
def scan3 : Matcher :=
  mseq (mChar '(') (mseq (mDigitsExact 3) (mseq (mChar ')')
    (mseq (mClassStar isSpacePy) (mseq (mDigitsExact 3)
      (mseq (mClassOpt isSep) (mDigitsExact 4))))))

/-- Scan pattern 4: `\d{3}[-.]?\d{3}[-.]?\d{4}` ("XXX-XXX-XXXX"). -/
def scan4 : Matcher :=
  mseq (mDigitsExact 3) (mseq (mClassOpt isSep) (mseq (mDigitsExact 3)
    (mseq (mClassOpt isSep) (mDigitsExact 4))))

/-- Scan pattern 5: `\+\d{1,3}\s\d{3,14}` ("International with space"). -/
def scan5 : Matcher :=
  mseq (mChar '+') (mseq (mDigitsRange 1 3)
    (mseq (mClass isSpacePy) (mDigitsRange 3 14)))

/-- The ordered phone_patterns list used for scanning source text. -/
def scanPatterns : List Matcher := [scan1, scan2, scan3, scan4, scan5]

/-- Python re.findall: non-overlapping matches found scanning left to
right, each being the backtracking-preferred match at the leftmost
position where any match starts.  A zero-width match contributes an
empty string and the scan advances one character (the patterns here can
never match the empty string). -/
def findallAux (m : Matcher) : Nat → List Char → List (List Char)
  | 0, _ => []
  | _, [] => []
  | fuel + 1, x :: xs =>
    match (m (x :: xs)).head? with
    | some r =>
      let n := (x :: xs).length - r.length
      if n = 0 then [] :: findallAux m fuel xs
      else (x :: xs).take n :: findallAux m fuel ((x :: xs).drop n)
    | none => findallAux m fuel xs

/-- The fuel, one unit per character, always suffices: every scan step
advances at least one position. -/
def findall (m : Matcher) (l : List Char) : List (List Char) :=
  findallAux m l.length l

/-- All candidate substrings extracted from one block of text: for each
pattern in phone_patterns, all findall matches, in that order. -/
def extractCandidates (text : String) : List String :=
  (scanPatterns.map (fun m => (findall m text.data).map List.asString)).flatten

/-- The digits of a string: re.sub of \D with the empty string. -/
def digitsOf (s : String) : List Char := s.data.filter isDigitPy

/-- clean_phone_number from web_scraper.py: strip non-digits, drop one
leading 1 from a more-than-10-digit result, then format. -/
def clean_phone_number (phone : String) : String :=
  let digits0 := digitsOf phone
  let digits := if 10 < digits0.length ∧ digits0.head? = some '1'
    then digits0.tail else digits0
  if digits.length = 10 then
    "(" ++ (digits.take 3).asString ++ ") " ++
      ((digits.drop 3).take 3).asString ++ "-" ++ (digits.drop 6).asString
  else if 10 < digits.length then "+" ++ digits.asString
  else digits.asString

/-- The fake-number regex `^(\d)\1{9,}$`: a digit followed by at least
nine more copies of itself, consuming the whole input. -/
def repeatedDigits (l : List Char) : Bool :=
  match l with
  | [] => false
  | c :: rest => isDigitPy c && decide (9 ≤ rest.length) && rest.all (fun d => d = c)

/-- The toll-free area codes recognised by validate_phone_number. -/
def tollFreeCodes : List (List Char) :=
  ["800", "844", "855", "866", "877", "888"].map String.data

/-- validate_phone_number from web_scraper.py.
Returns (is_valid, message, confidence_score). -/
def validate_phone_number (phone : String) : Bool × String × ℚ :=
  let digits := digitsOf phone
  if digits.length < 10 ∨ 15 < digits.length then (false, "Invalid length", 0)
  else
    let c0 : ℚ := if digits.length = 10 then 2/5 else 0
    let c1 : ℚ := if fullMatchB pat1 phone then 3/10 else 0
    let c2 : ℚ := if fullMatchB pat2 phone then 1/5 else 0
    let c3 : ℚ := if fullMatchB pat3 phone then 3/10 else 0
    let c4 : ℚ := if fullMatchB pat4 phone then 1/5 else 0
    let c5 : ℚ := if digits.length = 10 && tollFreeCodes.contains (digits.take 3)
      then 1/5 else 0
    let confidence := c0 + c1 + c2 + c3 + c4 + c5
    if repeatedDigits digits then (false, "Invalid pattern - repeated digits", 0)
    else if digits = "1234567890".data ∨ digits = "0123456789".data then
      (false, "Invalid pattern - sequential digits", 0)
    else if 0 < confidence then (true, "Valid phone number", min confidence 1)
    else (false, "Invalid format", 0)

/-- Aggregator state of search_contact_info: the nonlocal variables
best_phone, best_confidence, best_source (lines 117-119). -/
structure St where
  bestPhone : Option String
  bestConf : ℚ
  bestSource : Option String
deriving DecidableEq, Repr

/-- The initial aggregator state: best_phone = None, best_confidence = 0,
best_source = None. -/
def initSt : St := ⟨none, 0, none⟩

/-- process_potential_phone from web_scraper.py: clean, validate, weight
by the per-source base confidence, and replace the held best candidate
only if the new one is valid and strictly better. -/
def process_potential_phone (st : St) (phoneMatch source : String)
    (baseConfidence : ℚ) : St :=
  let cleaned := clean_phone_number phoneMatch
  let v := validate_phone_number cleaned
  let total := v.2.2 * baseConfidence
  if v.1 = true ∧ st.bestConf < total then ⟨some cleaned, total, some source⟩
  else st

/-- One extracted candidate as fed to the aggregation step: the raw
matched substring, the source label and its base weight. -/
structure Cand where
  raw : String
  source : String
  base : ℚ
deriving DecidableEq, Repr

/-- Feeding one candidate to the aggregator. -/
def candStep (st : St) (c : Cand) : St :=
  process_potential_phone st c.raw c.source c.base

/-- Feeding a finite list of candidates to the aggregator in order. -/
def aggregate (l : List Cand) : St := l.foldl candStep initSt

/-- Validity of a candidate: is_valid of its cleaned raw match. -/
def isValidC (c : Cand) : Bool :=
  (validate_phone_number (clean_phone_number c.raw)).1

/-- Total score of a candidate: validation score times base weight,
recomputed from its inputs. -/
def totalScore (c : Cand) : ℚ :=
  (validate_phone_number (clean_phone_number c.raw)).2.2 * c.base

/-- Processing one block of source text: every pattern's findall
matches, each fed to process_potential_phone. -/
def process_text (st : St) (text source : String) (base : ℚ) : St :=
  (extractCandidates text).foldl
    (fun s m => process_potential_phone s m source base) st

/-- The confidence banding of search_contact_info line 247:
high if the best confidence is above 0.8, medium if above 0.5,
low otherwise. -/
def confidenceLevel (q : ℚ) : String :=
  if 4/5 < q then "high" else if 1/2 < q then "medium" else "low"

/-- Python round(x, 2), as it acts on the scores reachable in this
program (all multiples of 1/100, on which every rounding rule agrees). -/
def round2 (q : ℚ) : ℚ := (round (q * 100) : ℤ) / 100

/-- The social profile URL templates of search_contact_info
lines 237-245, pure string construction from the query. -/
def socialProfiles (personName companyName : String) :
    List (String × String) :=
  let companyDomain := "www." ++ (companyName.toLower.replace " " "") ++ ".com"
  [("linkedin", "https://linkedin.com/in/" ++
      (personName.toLower.replace " " "-")),
   ("linkedin_company", "https://linkedin.com/company/" ++
      (companyName.toLower.replace " " "-")),
   ("twitter", "https://twitter.com/" ++ (personName.toLower.replace " " "")),
   ("company", "https://" ++ companyDomain),
   ("facebook", "https://facebook.com/" ++
      (companyName.toLower.replace " " "-"))]

/-- The contact_info dictionary built at search_contact_info
lines 249-255. -/
structure ContactInfo where
  phone : Option String
  confidence_score : String
  source : Option String
  social_profiles : List (String × String)
  validation_score : ℚ
deriving DecidableEq, Repr

/-- Outcome of the Google Business fetch: an exception, or a response
with a status code and the optional items list of snippets. -/
inductive GoogleOutcome where
  | exn : GoogleOutcome
  | resp (status : Nat) (items : Option (List String)) : GoogleOutcome
deriving DecidableEq, Repr

/-- Outcome of one company-subpage fetch: an exception, or a response
status together with the text trafilatura extracted (None or empty
means no usable content). -/
inductive PageOutcome where
  | exn : PageOutcome
  | resp (status : Nat) (text : Option String) : PageOutcome
deriving DecidableEq, Repr

/-- Outcome of one business-directory fetch: an exception, or a response
status, the soup text, whether trafilatura fetched the url, and what it
extracted. -/
inductive DirOutcome where
  | exn : DirOutcome
  | resp (status : Nat) (soupText : String) (downloaded : Bool)
      (trafText : Option String) : DirOutcome
deriving DecidableEq, Repr

/-- Outcome of the DuckDuckGo fetch: an exception, or a response status
with the serialised json text that is scanned. -/
inductive DdgOutcome where
  | exn : DdgOutcome
  | resp (status : Nat) (jsonText : String) : DdgOutcome
deriving DecidableEq, Repr

/-- The external world consulted by the fallback cascade: one outcome
per source. -/
structure ScrapeEnv where
  google : GoogleOutcome
  subpage : String → PageOutcome
  directory : String → DirOutcome
  ddg : DdgOutcome

/-- The fixed subpage list of search_contact_info lines 153-157. -/
def subpagePaths : List String :=
  ["/contact", "/about", "/team", "/directory", "/staff",
   "/people", "/management", "/leadership", "/executives",
   "/our-team", "/contact-us", "/about-us"]

/-- The fixed directory list of search_contact_info lines 182-192
(names only; the urls do not influence the model). -/
def directoryNames : List String :=
  ["Yellow Pages", "Yelp", "Better Business Bureau", "Manta",
   "Chamber of Commerce", "Local Business Directory", "White Pages",
   "CrunchBase", "ZoomInfo"]

/-- Tier 1, Google Business search (lines 136-149): on a 200 response
with items, every snippet is scanned with base confidence 0.9; an
exception or any other response contributes nothing. -/
def runGoogleSt (env : ScrapeEnv) (st : St) : St :=
  match env.google with
  | .exn => st
  | .resp status items =>
    if status = 200 then
      match items with
      | some snippets =>
        snippets.foldl (fun s t => process_text s t "Google Business" (9/10)) st
      | none => st
    else st

/-- Processing of one company subpage (lines 162-177): on a 200
response with truthy extracted text, scan it with base confidence 0.8;
an exception is caught and contributes nothing. -/
def subpageStep (env : ScrapeEnv) (st : St) (p : String) : St :=
  match env.subpage p with
  | .exn => st
  | .resp status text =>
    if status = 200 then
      match text with
      | some t =>
        if t ≠ "" then
          process_text st t ("Company Website (" ++ p ++ ")") (4/5)
        else st
      | none => st
    else st

/-- The state evolution of the tier 2 subpage loop (lines 159-177):
break as soon as a best phone is held, otherwise process the next
subpage. -/
def subpagesSt (env : ScrapeEnv) : List String → St → St
  | [], st => st
  | p :: rest, st =>
    if st.bestPhone.isSome then st
    else subpagesSt env rest (subpageStep env st p)

/-- The subpages actually fetched by the tier 2 loop, for the same
control flow as subpagesSt. -/
def subpagesLog (env : ScrapeEnv) : List String → St → List String
  | [], _ => []
  | p :: rest, st =>
    if st.bestPhone.isSome then []
    else p :: subpagesLog env rest (subpageStep env st p)

/-- Processing of one business directory (lines 197-215): on a 200
response, the soup text plus any trafilatura text is scanned with base
confidence 0.7; an exception is caught and contributes nothing. -/
def directoryStep (env : ScrapeEnv) (st : St) (name : String) : St :=
  match env.directory name with
  | .exn => st
  | .resp status soupText downloaded trafText =>
    if status = 200 then
      process_text st (soupText ++ (if downloaded then trafText.getD "" else ""))
        name (7/10)
    else st

/-- The state evolution of the inner tier 3 directory loop
(lines 194-215), with its per-directory break. -/
def directoriesSt (env : ScrapeEnv) : List String → St → St
  | [], st => st
  | d :: rest, st =>
    if st.bestPhone.isSome then st
    else directoriesSt env rest (directoryStep env st d)

/-- The directories actually fetched by the inner tier 3 loop. -/
def directoriesLog (env : ScrapeEnv) : List String → St → List String
  | [], _ => []
  | d :: rest, st =>
    if st.bestPhone.isSome then []
    else d :: directoriesLog env rest (directoryStep env st d)

/-- Tier 3 with its outer guard (line 180): run the directory loop only
when no best phone is held yet. -/
def runDirectoriesSt (env : ScrapeEnv) (st : St) : St :=
  if st.bestPhone.isSome then st else directoriesSt env directoryNames st

/-- The directories fetched by tier 3, outer guard included. -/
def runDirectoriesLog (env : ScrapeEnv) (st : St) : List String :=
  if st.bestPhone.isSome then [] else directoriesLog env directoryNames st

/-- Tier 4, DuckDuckGo (lines 221-234), guarded by the absence of a
best phone; on a 200 response the serialised json is scanned with base
confidence 0.6. -/
def runDdgSt (env : ScrapeEnv) (st : St) : St :=
  if st.bestPhone.isSome then st
  else
    match env.ddg with
    | .exn => st
    | .resp status jsonText =>
      if status = 200 then process_text st jsonText "DuckDuckGo" (3/5) else st

/-- Whether tier 4 performs its fetch. -/
def runDdgLog (env : ScrapeEnv) (st : St) : List String :=
  if st.bestPhone.isSome then [] else ["DuckDuckGo"]

/-- Aggregator state after tier 1. -/
def stAfterGoogle (env : ScrapeEnv) : St := runGoogleSt env initSt

/-- Aggregator state after tier 2. -/
def stAfterSubpages (env : ScrapeEnv) : St :=
  subpagesSt env subpagePaths (stAfterGoogle env)

/-- Aggregator state after tier 3. -/
def stAfterDirectories (env : ScrapeEnv) : St :=
  runDirectoriesSt env (stAfterSubpages env)

/-- Aggregator state after all four fallback tiers. -/
def finalSt (env : ScrapeEnv) : St := runDdgSt env (stAfterDirectories env)

/-- The contact_info dictionary built from a final aggregator state
(search_contact_info lines 247-255). -/
def mkContactInfo (st : St) (personName companyName : String) : ContactInfo :=
  { phone := st.bestPhone,
    confidence_score := confidenceLevel st.bestConf,
    source := st.bestSource,
    social_profiles := socialProfiles personName companyName,
    validation_score := round2 st.bestConf }

/-- The whole fallback cascade of search_contact_info (lines 99-258),
from the first Google fetch to the returned dictionary. -/
def searchContactFallback (env : ScrapeEnv) (personName companyName : String) :
    ContactInfo :=
  mkContactInfo (finalSt env) personName companyName

/-- The json body returned by the RocketReach lookup endpoint, reduced
to the fields read by lookup_person.  A field holds none when the key
is absent (an explicitly null json value behaves identically for every
field the claims touch). -/
structure RRJson where
  name : Option String
  title : Option String
  current_employer : Option String
  email : Option String
  phone_numbers : Option (List (Option String))
  linkedin_url : Option String
  twitter_url : Option String
deriving DecidableEq, Repr

/-- Outcome of one RocketReach HTTP request: an exception while
requesting or parsing, or a response with a status and an optional
(falsy json gives none) body. -/
inductive ApiOutcome where
  | exn : ApiOutcome
  | resp (status : Nat) (data : Option RRJson) : ApiOutcome
deriving DecidableEq, Repr

/-- The environment of the RocketReach client: whether an api key is
configured, whether the rate limiter allows a call, and the outcome of
each successive request. -/
structure ApiEnv where
  hasKey : Bool
  withinRateLimit : Bool
  outcomeAt : Nat → ApiOutcome

/-- The contact_info dictionary built by lookup_person on success
(api_services.py lines 53-65). -/
structure ApiContact where
  name : String
  position : Option String
  company : String
  email : Option String
  phone : Option String
  linkedin_url : Option String
  twitter_url : Option String
deriving DecidableEq, Repr

/-- The record lookup_person builds from a parsed json body.  The phone
is data.get of phone_numbers with default [None], indexed at 0. -/
def mkApiContact (d : RRJson) (name company : String) (ph : Option String) :
    ApiContact :=
  { name := d.name.getD name,
    position := d.title,
    company := d.current_employer.getD company,
    email := d.email,
    phone := ph,
    linkedin_url := d.linkedin_url,
    twitter_url := d.twitter_url }

/-- lookup_person from api_services.py: none when the api key is
missing, the rate limit is exhausted, the request or parsing raises,
the status is not 200, or the body is falsy.  An empty phone_numbers
list raises IndexError inside the try block, which the except clause
converts to none. -/
def lookup_person (env : ApiEnv) (callIdx : Nat) (name company : String) :
    Option ApiContact :=
  if !env.hasKey || !env.withinRateLimit then none
  else
    match env.outcomeAt callIdx with
    | .exn => none
    | .resp status data =>
      if status = 200 then
        match data with
        | none => none
        | some d =>
          match d.phone_numbers with
          | some [] => none
          | some (x :: _) => some (mkApiContact d name company x)
          | none => some (mkApiContact d name company none)
      else none

/-- Python truthiness of an optional string value: None and the empty
string are falsy. -/
def pyTruthyStr : Option String → Bool
  | none => false
  | some s => !s.isEmpty

/-- The value search_contact_info returns: the RocketReach dictionary,
or the scraped dictionary. -/
inductive SearchResult where
  | api (c : ApiContact) : SearchResult
  | scraped (c : ContactInfo) : SearchResult
deriving DecidableEq, Repr

/-- search_contact_info from web_scraper.py: one RocketReach lookup
attempt first; its result is returned only when it carries a truthy phone;
every other outcome falls back to web scraping. -/
def search_contact_info (aenv : ApiEnv) (senv : ScrapeEnv)
    (personName companyName : String) : SearchResult :=
  match lookup_person aenv 0 personName companyName with
  | some r =>
    if pyTruthyStr r.phone then .api r
    else .scraped (searchContactFallback senv personName companyName)
  | none => .scraped (searchContactFallback senv personName companyName)

/-- A Python value as it occurs in the dictionaries this program
builds: None, a string, a number, or a nested string dictionary. -/
inductive PyVal where
  | pyNone : PyVal
  | pyStr (s : String) : PyVal
  | pyNum (q : ℚ) : PyVal
  | pyDict (d : List (String × PyVal)) : PyVal

/-- Lift an optional string to a Python value. -/
def optStrVal : Option String → PyVal
  | none => PyVal.pyNone
  | some s => PyVal.pyStr s

/-- Python dict.get with a default. -/
def pyGet (d : List (String × PyVal)) (k : String) (dflt : PyVal) : PyVal :=
  (d.lookup k).getD dflt

/-- The contact_info dictionary literal of search_contact_info
lines 249-255, with its keys in source order. -/
def contact_info_dict (c : ContactInfo) : List (String × PyVal) :=
  [("phone", optStrVal c.phone),
   ("confidence_score", PyVal.pyStr c.confidence_score),
   ("source", optStrVal c.source),
   ("social_profiles",
     PyVal.pyDict (c.social_profiles.map (fun kv => (kv.1, PyVal.pyStr kv.2)))),
   ("validation_score", PyVal.pyNum c.validation_score)]

/-- The contact_info dictionary literal of lookup_person in
api_services.py lines 53-65, with its keys in source order. -/
def api_contact_dict (r : ApiContact) : List (String × PyVal) :=
  [("name", PyVal.pyStr r.name),
   ("position", optStrVal r.position),
   ("company", PyVal.pyStr r.company),
   ("email", optStrVal r.email),
   ("phone", optStrVal r.phone),
   ("social_profiles",
     PyVal.pyDict [("linkedin", optStrVal r.linkedin_url),
                   ("twitter", optStrVal r.twitter_url)]),
   ("confidence_score", PyVal.pyStr "high"),
   ("source", PyVal.pyStr "RocketReach API")]

/-- The person_info dictionary built by search_person in utils.py
lines 45-57: the contact_info dictionary (replaced by an empty one when
falsy) is repackaged through dict.get calls. -/
def search_person_dict (personName companyName : String)
    (contactInfo : Option (List (String × PyVal))) : List (String × PyVal) :=
  let ci := contactInfo.getD []
  [("name", PyVal.pyStr personName),
   ("company", PyVal.pyStr companyName),
   ("position", PyVal.pyStr "Professional"),
   ("email", pyGet ci "email" PyVal.pyNone),
   ("phone", pyGet ci "phone" PyVal.pyNone),
   ("social_profiles", pyGet ci "social_profiles" (PyVal.pyDict [])),
   ("confidence_score", pyGet ci "confidence_score" (PyVal.pyStr "low"))]

/-- Rendering of a canonical digit string, shared by the claimed and the
amended description of the normaliser: 10 digits as (XXX) XXX-XXXX, more
than 10 digits as + followed by the digits, anything else unchanged. -/
def renderDigits (l : List Char) : String :=
  if l.length = 10 then
    "(" ++ (l.take 3).asString ++ ") " ++
      ((l.drop 3).take 3).asString ++ "-" ++ (l.drop 6).asString
  else if 10 < l.length then "+" ++ l.asString
  else l.asString

/-- Claim C3 normalisation as stated: the leading country code digit is
dropped only when the digit string has exactly 11 digits. -/
def claimCleanPhoneC3 (s : String) : String :=
  let d := digitsOf s
  renderDigits (if d.length = 11 ∧ d.head? = some '1' then d.tail else d)

/-- The amended normalisation: the leading country code digit is
dropped whenever more than 10 digits remain and the first is 1. -/
def amendedCleanPhone (s : String) : String :=
  let d := digitsOf s
  renderDigits (if 10 < d.length ∧ d.head? = some '1' then d.tail else d)

/-- Claim C4 scoring as stated: the sum of exactly five signals
(10 digits, plain national, parenthesized, international, toll free). -/
def claimSignalSumC4 (phone : String) : ℚ :=
  (if (digitsOf phone).length = 10 then 2/5 else 0)
  + (if fullMatchB pat1 phone then 3/10 else 0)
  + (if fullMatchB pat3 phone then 3/10 else 0)
  + (if fullMatchB pat4 phone then 1/5 else 0)
  + (if (digitsOf phone).length = 10 &&
        tollFreeCodes.contains ((digitsOf phone).take 3) then 1/5 else 0)

/-- The amended scoring: the five claimed signals plus the separator
tolerant national pattern worth 0.2. -/
def amendedSignalSum (phone : String) : ℚ :=
  claimSignalSumC4 phone + (if fullMatchB pat2 phone then 1/5 else 0)

/-- No candidate extracted from this text validates. -/
def noValidCandB (t : String) : Bool :=
  (extractCandidates t).all
    (fun m => !(validate_phone_number (clean_phone_number m)).1)

/-- The Google outcome contributes no valid candidate. -/
def googleOk : GoogleOutcome → Bool
  | .exn => true
  | .resp _ items => (items.getD []).all noValidCandB

/-- The subpage outcome contributes no valid candidate. -/
def pageOk : PageOutcome → Bool
  | .exn => true
  | .resp _ text => noValidCandB (text.getD "")

/-- The directory outcome contributes no valid candidate. -/
def dirOk : DirOutcome → Bool
  | .exn => true
  | .resp _ soupText downloaded trafText =>
    noValidCandB (soupText ++ (if downloaded then trafText.getD "" else ""))

/-- The DuckDuckGo outcome contributes no valid candidate. -/
def ddgOk : DdgOutcome → Bool
  | .exn => true
  | .resp _ jsonText => noValidCandB jsonText

/-- The confidence sum accumulated by validate_phone_number lines
46-66, in source order: length signal, the four pattern weights, the
toll-free boost. -/
def codeSignalSum (phone : String) : ℚ :=
  (if (digitsOf phone).length = 10 then 2/5 else 0)
  + (if fullMatchB pat1 phone then 3/10 else 0)
  + (if fullMatchB pat2 phone then 1/5 else 0)
  + (if fullMatchB pat3 phone then 3/10 else 0)
  + (if fullMatchB pat4 phone then 1/5 else 0)
  + (if (digitsOf phone).length = 10 &&
        tollFreeCodes.contains ((digitsOf phone).take 3) then 1/5 else 0)

/-- The candidate list used to witness claim C1. -/
def c1List : List Cand := [⟨"(800) 555-0100", "Google Business", 1⟩]

/-- A toll-free candidate from a source of weight 0.9. -/
def candA : Cand := ⟨"(800) 555-0100", "A", 9/10⟩

/-- A second toll-free candidate with the same total score as candA but
a different phone and source. -/
def candB : Cand := ⟨"(888) 555-0100", "B", 9/10⟩

/-- A candidate with a strictly smaller total score than candA. -/
def candC : Cand := ⟨"(415) 555-0199", "C", 7/10⟩

/-- A scrape environment in which every fetch raises. -/
def scrapeEnvEmpty : ScrapeEnv :=
  { google := .exn, subpage := fun _ => .exn,
    directory := fun _ => .exn, ddg := .exn }

/-- A scrape environment in which the Google tier returns one snippet
holding a valid toll-free number and every other fetch raises. -/
def scrapeEnvGoogle : ScrapeEnv :=
  { google := .resp 200 (some ["(800) 555-0100"]),
    subpage := fun _ => .exn, directory := fun _ => .exn, ddg := .exn }

/-- A scrape environment in which only the company /contact subpage
yields text with a valid number. -/
def scrapeEnvContact : ScrapeEnv :=
  { google := .exn,
    subpage := fun p => if p = "/contact"
      then .resp 200 (some "Call us at (415) 555-0199") else .exn,
    directory := fun _ => .exn, ddg := .exn }

/-- A RocketReach json body carrying a phone number. -/
def rrSample : RRJson :=
  { name := some "Jane Doe", title := some "CEO",
    current_employer := some "Acme", email := some "jane@acme.test",
    phone_numbers := some [some "+1 555 123 4567"],
    linkedin_url := none, twitter_url := none }

/-- An authoritative client environment that answers with rrSample. -/
def apiEnvHit : ApiEnv := ⟨true, true, fun _ => .resp 200 (some rrSample)⟩

/-- An authoritative client environment with no api key configured. -/
def apiEnvNoKey : ApiEnv := ⟨false, true, fun _ => .resp 200 (some rrSample)⟩

/-- An authoritative client environment whose request raises. -/
def apiEnvExn : ApiEnv := ⟨true, true, fun _ => .exn⟩

/-- A sample contact_info record with a winning source and score. -/
def ciSample : ContactInfo :=
  ⟨some "(800) 555-0100", "high", some "Google Business", [], 81/100⟩

lemma validate_eq (s : String) :
    validate_phone_number s =
      if (digitsOf s).length < 10 ∨ 15 < (digitsOf s).length then
        (false, "Invalid length", 0)
      else if repeatedDigits (digitsOf s) then
        (false, "Invalid pattern - repeated digits", 0)
      else if digitsOf s = "1234567890".data ∨ digitsOf s = "0123456789".data then
        (false, "Invalid pattern - sequential digits", 0)
      else if 0 < codeSignalSum s then
        (true, "Valid phone number", min (codeSignalSum s) 1)
      else (false, "Invalid format", 0) := rfl

lemma validate_valid_pos (s : String) (h : (validate_phone_number s).1 = true) :
    0 < (validate_phone_number s).2.2 := by
  rw [validate_eq] at h ⊢
  split_ifs at h ⊢ with h1 h2 h3 h4
  all_goals first
    | exact lt_min h4 one_pos
    | simp at h

lemma candStep_eq (st : St) (c : Cand) :
    candStep st c =
      if isValidC c = true ∧ st.bestConf < totalScore c then
        ⟨some (clean_phone_number c.raw), totalScore c, some c.source⟩
      else st := by
  simp only [candStep, process_potential_phone, isValidC, totalScore]

lemma foldl_conf_mono (l : List Cand) (st : St) :
    st.bestConf ≤ (l.foldl candStep st).bestConf := by
  induction l generalizing st with
  | nil => simp
  | cons c rest ih =>
    refine le_trans ?_ (ih (candStep st c))
    rw [candStep_eq]
    split_ifs with h
    · exact le_of_lt h.2
    · exact le_refl _

lemma foldl_conf_ge (l : List Cand) (st : St) :
    ∀ c ∈ l, isValidC c = true → totalScore c ≤ (l.foldl candStep st).bestConf := by
  induction l generalizing st with
  | nil => simp
  | cons c rest ih =>
    intro c2 hc2 hv
    simp only [List.mem_cons] at hc2
    rcases hc2 with rfl | hmem
    · refine le_trans ?_ (foldl_conf_mono rest (candStep st c2))
      rw [candStep_eq]
      split_ifs with h
      · simp
      · push_neg at h
        exact h hv
    · exact ih (candStep st c) c2 hmem hv

lemma foldl_state (l : List Cand) (st : St) :
    l.foldl candStep st = st ∨
      ∃ c ∈ l, isValidC c = true ∧
        l.foldl candStep st =
          ⟨some (clean_phone_number c.raw), totalScore c, some c.source⟩ := by
  induction l generalizing st with
  | nil => left; rfl
  | cons c rest ih =>
    simp only [List.foldl_cons]
    rcases ih (candStep st c) with heq | ⟨c2, hmem, hv, heq⟩
    · rw [heq, candStep_eq]
      by_cases h : isValidC c = true ∧ st.bestConf < totalScore c
      · right
        exact ⟨c, List.mem_cons_self c rest, h.1, by rw [if_pos h]⟩
      · left
        rw [if_neg h]
    · right
      exact ⟨c2, List.mem_cons_of_mem c hmem, hv, heq⟩

lemma foldl_all_invalid (l : List Cand) (st : St)
    (h : ∀ c ∈ l, isValidC c = false) : l.foldl candStep st = st := by
  induction l generalizing st with
  | nil => rfl
  | cons c rest ih =>
    have hst : candStep st c = st := by
      rw [candStep_eq, if_neg]
      intro hcon
      rw [h c (List.mem_cons_self c rest)] at hcon
      exact absurd hcon.1 (by simp)
    simp only [List.foldl_cons, hst]
    exact ih st (fun c2 hc2 => h c2 (List.mem_cons_of_mem c hc2))

lemma totalScore_pos (c : Cand) (hv : isValidC c = true) (hb : 0 < c.base) :
    0 < totalScore c :=
  mul_pos (validate_valid_pos _ hv) hb

/-- Claim C1: after feeding any finite list of candidates to the
aggregation step in any order, the held best total score is the maximum
over valid candidates of validationScore times baseWeight, the held
candidate is absent when no candidate is valid, and an invalid
candidate never becomes the held winning candidate. -/
theorem c1_monotonic_aggregation (l : List Cand) (hw : ∀ c ∈ l, 0 < c.base) :
    ((∀ c ∈ l, isValidC c = false) → aggregate l = initSt) ∧
    (∀ c ∈ l, isValidC c = true →
      totalScore c ≤ (aggregate l).bestConf ∧
      ∃ c₀ ∈ l, isValidC c₀ = true ∧ (aggregate l).bestConf = totalScore c₀) ∧
    (∀ p, (aggregate l).bestPhone = some p →
      ∃ c₀ ∈ l, isValidC c₀ = true ∧ clean_phone_number c₀.raw = p ∧
        (aggregate l).bestSource = some c₀.source ∧
        (aggregate l).bestConf = totalScore c₀) := by
  have hagg : aggregate l = l.foldl candStep initSt := rfl
  refine ⟨fun h => foldl_all_invalid l initSt h, ?_, ?_⟩
  · intro c hc hv
    rw [hagg]
    refine ⟨foldl_conf_ge l initSt c hc hv, ?_⟩
    rcases foldl_state l initSt with heq | ⟨c₀, hmem, hv₀, heq⟩
    · exfalso
      have h1 := foldl_conf_ge l initSt c hc hv
      have h2 := totalScore_pos c hv (hw c hc)
      rw [heq] at h1
      simp only [initSt] at h1
      linarith
    · exact ⟨c₀, hmem, hv₀, by rw [heq]⟩
  · intro p hp
    rw [hagg] at hp ⊢
    rcases foldl_state l initSt with heq | ⟨c₀, hmem, hv₀, heq⟩
    · rw [heq] at hp
      simp [initSt] at hp
    · rw [heq] at hp
      simp only [Option.some.injEq] at hp
      exact ⟨c₀, hmem, hv₀, hp, by rw [heq], by rw [heq]⟩

theorem c1_monotonic_aggregation_witness :
    (∀ c ∈ c1List, 0 < c.base) ∧
    (∀ c ∈ c1List, isValidC c = true →
      totalScore c ≤ (aggregate c1List).bestConf ∧
      ∃ c₀ ∈ c1List, isValidC c₀ = true ∧
        (aggregate c1List).bestConf = totalScore c₀) :=
  ⟨by decide, (c1_monotonic_aggregation c1List (by decide)).2.1⟩

lemma validate_junk_cleaned :
    validate_phone_number (clean_phone_number "1234567890") =
      (false, "Invalid pattern - sequential digits", 0) := by
  have hc : clean_phone_number "1234567890" = "(123) 456-7890" := by decide
  rw [hc, validate_eq]
  rw [if_neg (by decide), if_neg (by decide), if_pos (by decide)]

/-- Claim C2: the confidence level is a pure function of the winning
total score, HIGH exactly above 0.8, MEDIUM exactly above 0.5 and at
most 0.8, LOW otherwise; and a query with no valid candidate resolves
with no phone, LOW confidence and no source. -/
theorem c2_confidence_banding :
    (∀ q : ℚ, (confidenceLevel q = "high" ↔ 4/5 < q)) ∧
    (∀ q : ℚ, (confidenceLevel q = "medium" ↔ 1/2 < q ∧ q ≤ 4/5)) ∧
    (∀ q : ℚ, (confidenceLevel q = "low" ↔ q ≤ 1/2)) ∧
    (∀ (l : List Cand) (p co : String), (∀ c ∈ l, isValidC c = false) →
      (mkContactInfo (aggregate l) p co).phone = none ∧
      (mkContactInfo (aggregate l) p co).confidence_score = "low" ∧
      (mkContactInfo (aggregate l) p co).source = none ∧
      (mkContactInfo (aggregate l) p co).validation_score = 0) := by
  refine ⟨?_, ?_, ?_, ?_⟩
  · intro q
    unfold confidenceLevel
    split_ifs with h1 h2 <;> simp_all <;> intros <;> linarith
  · intro q
    unfold confidenceLevel
    split_ifs with h1 h2 <;> simp_all <;> intros <;> linarith
  · intro q
    unfold confidenceLevel
    split_ifs with h1 h2 <;> simp_all <;> intros <;> linarith
  · intro l p co h
    have hagg : aggregate l = initSt := foldl_all_invalid l initSt h
    rw [hagg]
    refine ⟨rfl, ?_, rfl, ?_⟩
    · show confidenceLevel (0 : ℚ) = "low"
      unfold confidenceLevel
      rw [if_neg (by norm_num), if_neg (by norm_num)]
    · show round2 (0 : ℚ) = 0
      unfold round2
      norm_num

theorem c2_confidence_banding_witness :
    confidenceLevel (17/20) = "high" ∧ confidenceLevel (3/5) = "medium" ∧
    confidenceLevel (3/10) = "low" ∧ confidenceLevel (4/5) = "medium" ∧
    (mkContactInfo (aggregate [⟨"1234567890", "X", 1⟩]) "Jane Doe"
       "Acme Corp").phone = none := by
  obtain ⟨h1, h2, h3, h4⟩ := c2_confidence_banding
  refine ⟨(h1 _).mpr (by norm_num), (h2 _).mpr ⟨by norm_num, by norm_num⟩,
    (h3 _).mpr (by norm_num), (h2 _).mpr ⟨by norm_num, by norm_num⟩,
    (h4 [⟨"1234567890", "X", 1⟩] "Jane Doe" "Acme Corp" ?_).1⟩
  intro c hc
  rw [List.mem_singleton] at hc
  subst hc
  show (validate_phone_number (clean_phone_number "1234567890")).1 = false
  rw [validate_junk_cleaned]

/-- Claim C3 (counterexample): on an input with twelve digits starting
with 1, clean_phone_number drops the leading digit although the claim
says the drop happens only for exactly eleven digits. -/
theorem c3_normalization_counterexample :
    clean_phone_number "111234567890" = "+11234567890" ∧
    claimCleanPhoneC3 "111234567890" = "+111234567890" ∧
    claimCleanPhoneC3 "111234567890" ≠ clean_phone_number "111234567890" := by
  refine ⟨by decide, by decide, by decide⟩

/-- Claim C3 (amended): normalization strips all non-digit characters;
whenever the result has more than 10 digits and begins with the digit
1, that leading digit is dropped; then exactly 10 digits render as
(XXX) XXX-XXXX, more than 10 digits render as + followed by the digits,
and anything else is returned unchanged. -/
theorem c3_normalization_amended (s : String) :
    clean_phone_number s = amendedCleanPhone s := by
  unfold clean_phone_number amendedCleanPhone renderDigits
  rfl

/-- Claim C5: validation rejects, with score 0, every input whose digit
count is outside 10 to 15, every input whose digits are all identical,
and every input whose digits form one of the two canonical junk
sequences, regardless of which syntactic pattern matched. -/
theorem c5_junk_rejection (phone : String) :
    (((digitsOf phone).length < 10 ∨ 15 < (digitsOf phone).length) →
       validate_phone_number phone = (false, "Invalid length", 0)) ∧
    ((∀ a ∈ digitsOf phone, ∀ b ∈ digitsOf phone, a = b) →
       (validate_phone_number phone).1 = false ∧
       (validate_phone_number phone).2.2 = 0) ∧
    ((digitsOf phone = "1234567890".data ∨ digitsOf phone = "0123456789".data) →
       (validate_phone_number phone).1 = false ∧
       (validate_phone_number phone).2.2 = 0) := by
  refine ⟨?_, ?_, ?_⟩
  · intro h
    rw [validate_eq, if_pos h]
  · intro h
    by_cases hlen : (digitsOf phone).length < 10 ∨ 15 < (digitsOf phone).length
    · rw [validate_eq, if_pos hlen]
      exact ⟨rfl, rfl⟩
    · have hrep : repeatedDigits (digitsOf phone) = true := by
        rcases hd : digitsOf phone with _ | ⟨c, rest⟩
        · exfalso
          push_neg at hlen
          rw [hd] at hlen
          simp at hlen
        · have hdig : isDigitPy c = true := by
            have hmem : c ∈ digitsOf phone := by
              rw [hd]; exact List.mem_cons_self _ _
            simp only [digitsOf] at hmem
            exact List.of_mem_filter hmem
          have hlen2 : 9 ≤ rest.length := by
            push_neg at hlen
            have h10 := hlen.1
            rw [hd] at h10
            simp at h10
            omega
          have hall : rest.all (fun d => d = c) = true := by
            rw [List.all_eq_true]
            intro d hdm
            have hm1 : d ∈ digitsOf phone := by
              rw [hd]; exact List.mem_cons_of_mem _ hdm
            have hm2 : c ∈ digitsOf phone := by
              rw [hd]; exact List.mem_cons_self _ _
            simpa using h d hm1 c hm2
          simp [repeatedDigits, hdig, hall, hlen2]
      rw [validate_eq, if_neg hlen, if_pos hrep]
      exact ⟨rfl, rfl⟩
  · intro h
    have hlen : ¬((digitsOf phone).length < 10 ∨ 15 < (digitsOf phone).length) := by
      rcases h with h | h <;> rw [h] <;> decide
    by_cases hrep : repeatedDigits (digitsOf phone) = true
    · rw [validate_eq, if_neg hlen, if_pos hrep]
      exact ⟨rfl, rfl⟩
    · rw [validate_eq, if_neg hlen, if_neg hrep, if_pos h]
      exact ⟨rfl, rfl⟩

theorem c5_junk_rejection_witness :
    validate_phone_number "123" = (false, "Invalid length", 0) ∧
    ((validate_phone_number "0000000000").1 = false ∧
     (validate_phone_number "0000000000").2.2 = 0) ∧
    ((validate_phone_number "123-456-7890").1 = false ∧
     (validate_phone_number "123-456-7890").2.2 = 0) :=
  ⟨(c5_junk_rejection "123").1 (by decide),
   (c5_junk_rejection "0000000000").2.1 (by decide),
   (c5_junk_rejection "123-456-7890").2.2 (by decide)⟩

lemma digits_555sep : digitsOf "555-123-4567" = "5551234567".data := by decide

lemma claimSum_555sep : claimSignalSumC4 "555-123-4567" = 2/5 := by
  unfold claimSignalSumC4
  rw [digits_555sep]
  rw [if_pos (by decide), if_neg (by decide), if_neg (by decide),
    if_neg (by decide), if_neg (by decide)]
  norm_num

lemma codeSum_555sep : codeSignalSum "555-123-4567" = 3/5 := by
  unfold codeSignalSum
  rw [digits_555sep]
  rw [if_pos (by decide), if_neg (by decide), if_pos (by decide),
    if_neg (by decide), if_neg (by decide), if_neg (by decide)]
  norm_num

lemma validate_555sep :
    validate_phone_number "555-123-4567" = (true, "Valid phone number", 3/5) := by
  rw [validate_eq, digits_555sep, codeSum_555sep]
  rw [if_neg (by decide), if_neg (by decide), if_neg (by decide),
    if_pos (by norm_num)]
  norm_num

/-- Claim C4 (counterexample): the input 555-123-4567 passes length and
junk checks, yet scores 0.6 where the five claimed signals sum to only
0.4: the code also awards 0.2 for the separator-tolerant national
pattern, a signal the claim omits. -/
theorem c4_signal_sum_counterexample :
    (validate_phone_number "555-123-4567").1 = true ∧
    (validate_phone_number "555-123-4567").2.2 = 3/5 ∧
    min (claimSignalSumC4 "555-123-4567") 1 = 2/5 ∧
    (validate_phone_number "555-123-4567").2.2 ≠
      min (claimSignalSumC4 "555-123-4567") 1 := by
  rw [validate_555sep, claimSum_555sep]
  refine ⟨rfl, rfl, by norm_num, by norm_num⟩

/-- Claim C4 (amended): for inputs whose digit count lies in 10 to 15
and which are not junk, the validation score is the sum, capped at 1.0,
of the five claimed signals plus 0.2 for the separator-tolerant
national pattern, and a total of exactly 0 yields isValid = false. -/
theorem c4_signal_sum_amended (phone : String)
    (h1 : 10 ≤ (digitsOf phone).length) (h2 : (digitsOf phone).length ≤ 15)
    (h3 : repeatedDigits (digitsOf phone) = false)
    (h4 : digitsOf phone ≠ "1234567890".data)
    (h5 : digitsOf phone ≠ "0123456789".data) :
    validate_phone_number phone =
      if 0 < amendedSignalSum phone then
        (true, "Valid phone number", min (amendedSignalSum phone) 1)
      else (false, "Invalid format", 0) := by
  have hsum : codeSignalSum phone = amendedSignalSum phone := by
    unfold codeSignalSum amendedSignalSum claimSignalSumC4
    ring
  rw [validate_eq, if_neg (by omega), if_neg (by simp [h3]),
    if_neg (by simp [h4, h5]), hsum]

theorem c4_signal_sum_amended_witness :
    validate_phone_number "5551234567" =
      if 0 < amendedSignalSum "5551234567" then
        (true, "Valid phone number", min (amendedSignalSum "5551234567") 1)
      else (false, "Invalid format", 0) :=
  c4_signal_sum_amended "5551234567" (by decide) (by decide) (by decide)
    (by decide) (by decide)

lemma clean_800 : clean_phone_number "(800) 555-0100" = "(800) 555-0100" := by
  decide

lemma digits_800 : digitsOf "(800) 555-0100" = "8005550100".data := by decide

lemma codeSum_800 : codeSignalSum "(800) 555-0100" = 9/10 := by
  unfold codeSignalSum
  rw [digits_800]
  rw [if_pos (by decide), if_neg (by decide), if_neg (by decide),
    if_pos (by decide), if_neg (by decide), if_pos (by decide)]
  norm_num

lemma validate_800 :
    validate_phone_number "(800) 555-0100" =
      (true, "Valid phone number", 9/10) := by
  rw [validate_eq, digits_800, codeSum_800]
  rw [if_neg (by decide), if_neg (by decide), if_neg (by decide),
    if_pos (by norm_num)]
  norm_num

lemma clean_888 : clean_phone_number "(888) 555-0100" = "(888) 555-0100" := by
  decide

lemma digits_888 : digitsOf "(888) 555-0100" = "8885550100".data := by decide

lemma codeSum_888 : codeSignalSum "(888) 555-0100" = 9/10 := by
  unfold codeSignalSum
  rw [digits_888]
  rw [if_pos (by decide), if_neg (by decide), if_neg (by decide),
    if_pos (by decide), if_neg (by decide), if_pos (by decide)]
  norm_num

lemma validate_888 :
    validate_phone_number "(888) 555-0100" =
      (true, "Valid phone number", 9/10) := by
  rw [validate_eq, digits_888, codeSum_888]
  rw [if_neg (by decide), if_neg (by decide), if_neg (by decide),
    if_pos (by norm_num)]
  norm_num

lemma clean_415 : clean_phone_number "(415) 555-0199" = "(415) 555-0199" := by
  decide

lemma digits_415 : digitsOf "(415) 555-0199" = "4155550199".data := by decide

lemma codeSum_415 : codeSignalSum "(415) 555-0199" = 7/10 := by
  unfold codeSignalSum
  rw [digits_415]
  rw [if_pos (by decide), if_neg (by decide), if_neg (by decide),
    if_pos (by decide), if_neg (by decide), if_neg (by decide)]
  norm_num

lemma validate_415 :
    validate_phone_number "(415) 555-0199" =
      (true, "Valid phone number", 7/10) := by
  rw [validate_eq, digits_415, codeSum_415]
  rw [if_neg (by decide), if_neg (by decide), if_neg (by decide),
    if_pos (by norm_num)]
  norm_num

lemma isValidC_candA : isValidC candA = true := by
  unfold isValidC candA
  rw [clean_800, validate_800]

lemma totalScore_candA : totalScore candA = 81/100 := by
  unfold totalScore candA
  rw [clean_800, validate_800]
  norm_num

lemma isValidC_candB : isValidC candB = true := by
  unfold isValidC candB
  rw [clean_888, validate_888]

lemma totalScore_candB : totalScore candB = 81/100 := by
  unfold totalScore candB
  rw [clean_888, validate_888]
  norm_num

lemma isValidC_candC : isValidC candC = true := by
  unfold isValidC candC
  rw [clean_415, validate_415]

lemma totalScore_candC : totalScore candC = 49/100 := by
  unfold totalScore candC
  rw [clean_415, validate_415]
  norm_num

lemma candStep_init_A :
    candStep initSt candA = ⟨some "(800) 555-0100", 81/100, some "A"⟩ := by
  rw [candStep_eq, if_pos ⟨isValidC_candA,
    by rw [totalScore_candA]; show (0:ℚ) < 81/100; norm_num⟩]
  rw [totalScore_candA]
  show St.mk (some (clean_phone_number "(800) 555-0100")) _ (some "A") = _
  rw [clean_800]

lemma candStep_init_B :
    candStep initSt candB = ⟨some "(888) 555-0100", 81/100, some "B"⟩ := by
  rw [candStep_eq, if_pos ⟨isValidC_candB,
    by rw [totalScore_candB]; show (0:ℚ) < 81/100; norm_num⟩]
  rw [totalScore_candB]
  show St.mk (some (clean_phone_number "(888) 555-0100")) _ (some "B") = _
  rw [clean_888]

lemma aggregate_AB :
    aggregate [candA, candB] = ⟨some "(800) 555-0100", 81/100, some "A"⟩ := by
  show candStep (candStep initSt candA) candB = _
  rw [candStep_init_A, candStep_eq, if_neg]
  rintro ⟨-, hlt⟩
  rw [totalScore_candB] at hlt
  exact lt_irrefl _ hlt

lemma aggregate_BA :
    aggregate [candB, candA] = ⟨some "(888) 555-0100", 81/100, some "B"⟩ := by
  show candStep (candStep initSt candB) candA = _
  rw [candStep_init_B, candStep_eq, if_neg]
  rintro ⟨-, hlt⟩
  rw [totalScore_candA] at hlt
  exact lt_irrefl _ hlt

/-- Claim C6 (counterexample): two valid candidates with equal total
scores but different phones and sources; fed in the two possible
orders, the aggregator holds different winning candidates, so the
winning candidate is not invariant under reordering. -/
theorem c6_reorder_counterexample :
    List.Perm [candB, candA] [candA, candB] ∧
    (aggregate [candA, candB]).bestPhone = some "(800) 555-0100" ∧
    (aggregate [candB, candA]).bestPhone = some "(888) 555-0100" ∧
    (aggregate [candA, candB]).bestPhone ≠ (aggregate [candB, candA]).bestPhone ∧
    (aggregate [candA, candB]).bestSource ≠
      (aggregate [candB, candA]).bestSource := by
  rw [aggregate_AB, aggregate_BA]
  exact ⟨List.Perm.swap candA candB [], rfl, rfl, by simp, by simp⟩

lemma aggregate_state (l : List Cand) :
    aggregate l = initSt ∨
      ∃ c ∈ l, isValidC c = true ∧
        aggregate l =
          ⟨some (clean_phone_number c.raw), totalScore c, some c.source⟩ :=
  foldl_state l initSt

lemma aggregate_conf_ge (l : List Cand) :
    ∀ c ∈ l, isValidC c = true → totalScore c ≤ (aggregate l).bestConf :=
  foldl_conf_ge l initSt

lemma aggregate_conf_nonneg (l : List Cand) : 0 ≤ (aggregate l).bestConf :=
  foldl_conf_mono l initSt

lemma agg_conf_le (l l2 : List Cand) (hsub : ∀ c ∈ l, c ∈ l2) :
    (aggregate l).bestConf ≤ (aggregate l2).bestConf := by
  rcases aggregate_state l with he | ⟨c, hm, hv, he⟩
  · rw [he]
    exact aggregate_conf_nonneg l2
  · rw [he]
    exact aggregate_conf_ge l2 c (hsub c hm) hv

lemma agg_conf_perm (l l2 : List Cand) (hp : l.Perm l2) :
    (aggregate l).bestConf = (aggregate l2).bestConf :=
  le_antisymm (agg_conf_le l l2 (fun c hc => hp.subset hc))
    (agg_conf_le l2 l (fun c hc => hp.symm.subset hc))

/-- Claim C6 (amended): for a fixed finite candidate set, the held best
total score and the resulting confidence level are invariant under
every reordering; the winning candidate itself (phone and source) is
also order-invariant provided no two distinct valid candidates tie on
total score. -/
theorem c6_reorder_determinism_amended (l l2 : List Cand) (hp : l.Perm l2)
    (hw : ∀ c ∈ l, 0 < c.base) :
    (aggregate l).bestConf = (aggregate l2).bestConf ∧
    confidenceLevel (aggregate l).bestConf =
      confidenceLevel (aggregate l2).bestConf ∧
    ((∀ c ∈ l, ∀ c2 ∈ l, isValidC c = true → isValidC c2 = true →
        totalScore c = totalScore c2 →
        clean_phone_number c.raw = clean_phone_number c2.raw ∧
          c.source = c2.source) →
      aggregate l = aggregate l2) := by
  have hconf := agg_conf_perm l l2 hp
  refine ⟨hconf, by rw [hconf], ?_⟩
  intro hties
  rcases aggregate_state l with he1 | ⟨c1, hm1, hv1, he1⟩ <;>
    rcases aggregate_state l2 with he2 | ⟨c2, hm2, hv2, he2⟩
  · rw [he1, he2]
  · exfalso
    have hpos := totalScore_pos c2 hv2 (hw c2 (hp.symm.subset hm2))
    rw [he1, he2] at hconf
    simp only [initSt] at hconf
    linarith
  · exfalso
    have hpos := totalScore_pos c1 hv1 (hw c1 hm1)
    rw [he1, he2] at hconf
    simp only [initSt] at hconf
    linarith
  · rw [he1, he2]
    have heqt : totalScore c1 = totalScore c2 := by
      rw [he1, he2] at hconf
      exact hconf
    obtain ⟨hcl, hsrc⟩ :=
      hties c1 hm1 c2 (hp.symm.subset hm2) hv1 hv2 heqt
    rw [hcl, hsrc, heqt]

theorem c6_reorder_determinism_amended_witness :
    aggregate [candA, candC] = aggregate [candC, candA] := by
  refine (c6_reorder_determinism_amended [candA, candC] [candC, candA]
    (List.Perm.swap candC candA []) ?_).2.2 ?_
  · intro c hc
    simp only [List.mem_cons, List.not_mem_nil, or_false] at hc
    rcases hc with rfl | rfl
    · show (0:ℚ) < 9/10
      norm_num
    · show (0:ℚ) < 7/10
      norm_num
  · intro c hc c2 hc2 hv hv2 heq
    simp only [List.mem_cons, List.not_mem_nil, or_false] at hc hc2
    rcases hc with rfl | rfl <;> rcases hc2 with rfl | rfl
    · exact ⟨rfl, rfl⟩
    · exfalso
      rw [totalScore_candA, totalScore_candC] at heq
      norm_num at heq
    · exfalso
      rw [totalScore_candC, totalScore_candA] at heq
      norm_num at heq
    · exact ⟨rfl, rfl⟩

/-- Claim C7: the authoritative lookup is attempted first and consults
only its first outcome; a result with a truthy phone is returned with
no fallback; a missing api key, an exhausted rate limit, an exception,
a non-success status, a falsy body, or a result without a truthy phone
all behave exactly like no phone found: the fallback cascade runs and
no error propagates. -/
theorem c7_authoritative_first (aenv : ApiEnv) (senv : ScrapeEnv)
    (p co : String) :
    (∀ r, lookup_person aenv 0 p co = some r → pyTruthyStr r.phone = true →
      search_contact_info aenv senv p co = .api r) ∧
    (aenv.hasKey = false → lookup_person aenv 0 p co = none) ∧
    (aenv.withinRateLimit = false → lookup_person aenv 0 p co = none) ∧
    (aenv.outcomeAt 0 = .exn → lookup_person aenv 0 p co = none) ∧
    (∀ status data, aenv.outcomeAt 0 = .resp status data → status ≠ 200 →
      lookup_person aenv 0 p co = none) ∧
    (∀ status, aenv.outcomeAt 0 = .resp status none → lookup_person aenv 0 p co = none) ∧
    (lookup_person aenv 0 p co = none →
      search_contact_info aenv senv p co =
        .scraped (searchContactFallback senv p co)) ∧
    (∀ r, lookup_person aenv 0 p co = some r → pyTruthyStr r.phone = false →
      search_contact_info aenv senv p co =
        .scraped (searchContactFallback senv p co)) ∧
    (∀ aenv2 : ApiEnv, aenv2.hasKey = aenv.hasKey →
      aenv2.withinRateLimit = aenv.withinRateLimit →
      aenv2.outcomeAt 0 = aenv.outcomeAt 0 →
      search_contact_info aenv2 senv p co = search_contact_info aenv senv p co) := by
  refine ⟨?_, ?_, ?_, ?_, ?_, ?_, ?_, ?_, ?_⟩
  · intro r hr htr
    unfold search_contact_info
    rw [hr]
    simp [htr]
  · intro h
    unfold lookup_person
    rw [h]
    rfl
  · intro h
    unfold lookup_person
    rw [h]
    simp
  · intro h
    unfold lookup_person
    rw [h]
    simp
  · intro status data h hne
    unfold lookup_person
    rw [h]
    split_ifs with hcase
    · rfl
    · dsimp only
      rw [if_neg hne]
  · intro status h
    unfold lookup_person
    rw [h]
    split_ifs with hcase
    · rfl
    · dsimp only
      split_ifs <;> rfl
  · intro h
    unfold search_contact_info
    rw [h]
  · intro r hr htr
    unfold search_contact_info
    rw [hr]
    simp [htr]
  · intro aenv2 h1 h2 h3
    have hlk : lookup_person aenv2 0 p co = lookup_person aenv 0 p co := by
      unfold lookup_person
      rw [h1, h2, h3]
    unfold search_contact_info
    rw [hlk]

theorem c7_authoritative_first_witness :
    search_contact_info apiEnvHit scrapeEnvEmpty "Jane Doe" "Acme Corp" =
      .api (mkApiContact rrSample "Jane Doe" "Acme Corp"
        (some "+1 555 123 4567")) ∧
    lookup_person apiEnvNoKey 0 "Jane Doe" "Acme Corp" = none ∧
    lookup_person apiEnvExn 0 "Jane Doe" "Acme Corp" = none ∧
    search_contact_info apiEnvNoKey scrapeEnvEmpty "Jane Doe" "Acme Corp" =
      .scraped (searchContactFallback scrapeEnvEmpty "Jane Doe" "Acme Corp") := by
  have h1 := (c7_authoritative_first apiEnvHit scrapeEnvEmpty
    "Jane Doe" "Acme Corp").1
  have h2 := (c7_authoritative_first apiEnvNoKey scrapeEnvEmpty
    "Jane Doe" "Acme Corp").2.1
  have h3 := (c7_authoritative_first apiEnvExn scrapeEnvEmpty
    "Jane Doe" "Acme Corp").2.2.2.1
  have h4 := (c7_authoritative_first apiEnvNoKey scrapeEnvEmpty
    "Jane Doe" "Acme Corp").2.2.2.2.2.2.1
  exact ⟨h1 _ rfl rfl, h2 rfl, h3 rfl, h4 (h2 rfl)⟩

lemma pp_invalid (st : St) (m src : String) (b : ℚ)
    (h : (validate_phone_number (clean_phone_number m)).1 = false) :
    process_potential_phone st m src b = st := by
  unfold process_potential_phone
  rw [if_neg]
  rintro ⟨hv, -⟩
  rw [h] at hv
  cases hv

lemma foldl_pp_invalid (ms : List String) (src : String) (b : ℚ) (st : St)
    (h : ∀ m ∈ ms, (validate_phone_number (clean_phone_number m)).1 = false) :
    ms.foldl (fun s m => process_potential_phone s m src b) st = st := by
  induction ms generalizing st with
  | nil => rfl
  | cons m rest ih =>
    rw [List.foldl_cons, pp_invalid st m src b (h m (List.mem_cons_self _ _))]
    exact ih st (fun m2 hm2 => h m2 (List.mem_cons_of_mem _ hm2))

lemma process_text_noValid (st : St) (t src : String) (b : ℚ)
    (h : noValidCandB t = true) : process_text st t src b = st := by
  unfold process_text
  apply foldl_pp_invalid
  intro m hm
  unfold noValidCandB at h
  rw [List.all_eq_true] at h
  simpa using h m hm

lemma foldl_text_noValid (snips : List String) (src : String) (b : ℚ) (st : St)
    (h : ∀ t ∈ snips, noValidCandB t = true) :
    snips.foldl (fun s t => process_text s t src b) st = st := by
  induction snips generalizing st with
  | nil => rfl
  | cons t rest ih =>
    rw [List.foldl_cons, process_text_noValid st t src b (h t (List.mem_cons_self _ _))]
    exact ih st (fun t2 ht2 => h t2 (List.mem_cons_of_mem _ ht2))

lemma runGoogleSt_safe (env : ScrapeEnv) (st : St)
    (h : googleOk env.google = true) : runGoogleSt env st = st := by
  unfold runGoogleSt
  cases hg : env.google with
  | exn => rfl
  | resp status items =>
    rw [hg] at h
    unfold googleOk at h
    dsimp only at h ⊢
    split_ifs with hs
    · cases items with
      | none => rfl
      | some snippets =>
        simp only [Option.getD_some] at h
        exact foldl_text_noValid snippets _ _ st (List.all_eq_true.mp h)
    · rfl

lemma subpageStep_safe (env : ScrapeEnv) (st : St) (p : String)
    (h : pageOk (env.subpage p) = true) : subpageStep env st p = st := by
  unfold subpageStep
  cases hg : env.subpage p with
  | exn => rfl
  | resp status text =>
    rw [hg] at h
    unfold pageOk at h
    dsimp only at h ⊢
    split_ifs with hs
    · cases text with
      | none => rfl
      | some t =>
        dsimp only
        split_ifs with ht
        · exact process_text_noValid st t _ _ (by simpa using h)
        · rfl
    · rfl

lemma subpagesSt_safe (env : ScrapeEnv) (ps : List String) (st : St)
    (h : ∀ p ∈ ps, pageOk (env.subpage p) = true) : subpagesSt env ps st = st := by
  induction ps generalizing st with
  | nil => rfl
  | cons p rest ih =>
    show (if st.bestPhone.isSome then st
      else subpagesSt env rest (subpageStep env st p)) = st
    split_ifs with hsome
    · rfl
    · rw [subpageStep_safe env st p (h p (List.mem_cons_self _ _))]
      exact ih st (fun q hq => h q (List.mem_cons_of_mem _ hq))

lemma directoryStep_safe (env : ScrapeEnv) (st : St) (n : String)
    (h : dirOk (env.directory n) = true) : directoryStep env st n = st := by
  unfold directoryStep
  cases hg : env.directory n with
  | exn => rfl
  | resp status soupText downloaded trafText =>
    rw [hg] at h
    unfold dirOk at h
    dsimp only at h ⊢
    split_ifs at h ⊢ with hs hdl
    all_goals first
      | exact process_text_noValid st _ _ _ h
      | rfl

lemma directoriesSt_safe (env : ScrapeEnv) (ds : List String) (st : St)
    (h : ∀ n ∈ ds, dirOk (env.directory n) = true) :
    directoriesSt env ds st = st := by
  induction ds generalizing st with
  | nil => rfl
  | cons n rest ih =>
    show (if st.bestPhone.isSome then st
      else directoriesSt env rest (directoryStep env st n)) = st
    split_ifs with hsome
    · rfl
    · rw [directoryStep_safe env st n (h n (List.mem_cons_self _ _))]
      exact ih st (fun q hq => h q (List.mem_cons_of_mem _ hq))

lemma runDdgSt_safe (env : ScrapeEnv) (st : St)
    (h : ddgOk env.ddg = true) : runDdgSt env st = st := by
  unfold runDdgSt
  split_ifs with hsome
  · rfl
  · cases hg : env.ddg with
    | exn => rfl
    | resp status jsonText =>
      rw [hg] at h
      unfold ddgOk at h
      dsimp only at h ⊢
      split_ifs with hs
      · exact process_text_noValid st _ _ _ h
      · rfl

lemma subpagesSt_stop (env : ScrapeEnv) (ps : List String) (st : St)
    (h : st.bestPhone.isSome = true) : subpagesSt env ps st = st := by
  cases ps with
  | nil => rfl
  | cons p rest =>
    show (if st.bestPhone.isSome then st
      else subpagesSt env rest (subpageStep env st p)) = st
    rw [if_pos h]

lemma subpagesLog_stop (env : ScrapeEnv) (ps : List String) (st : St)
    (h : st.bestPhone.isSome = true) : subpagesLog env ps st = [] := by
  cases ps with
  | nil => rfl
  | cons p rest =>
    show (if st.bestPhone.isSome then []
      else p :: subpagesLog env rest (subpageStep env st p)) = []
    rw [if_pos h]

lemma directoriesSt_stop (env : ScrapeEnv) (ds : List String) (st : St)
    (h : st.bestPhone.isSome = true) : directoriesSt env ds st = st := by
  cases ds with
  | nil => rfl
  | cons n rest =>
    show (if st.bestPhone.isSome then st
      else directoriesSt env rest (directoryStep env st n)) = st
    rw [if_pos h]

lemma mkContactInfo_init (p co : String) :
    mkContactInfo initSt p co = ⟨none, "low", none, socialProfiles p co, 0⟩ := by
  unfold mkContactInfo initSt
  have h1 : confidenceLevel 0 = "low" := by
    unfold confidenceLevel
    rw [if_neg (by norm_num), if_neg (by norm_num)]
  have h2 : round2 0 = 0 := by
    unfold round2
    norm_num
  rw [h1, h2]

/-- Claim C8: an exception in any one fallback source is caught at that
source, contributes zero candidates, and leaves the processing of the
remaining sources unchanged; and when no source yields a valid
candidate the resolution degrades to a result with no phone, LOW
confidence and no source rather than failing. -/
theorem c8_source_isolation (env : ScrapeEnv) (p co : String)
    (hg : googleOk env.google = true)
    (hs : ∀ q ∈ subpagePaths, pageOk (env.subpage q) = true)
    (hd : ∀ n ∈ directoryNames, dirOk (env.directory n) = true)
    (hq : ddgOk env.ddg = true) :
    searchContactFallback env p co =
      ⟨none, "low", none, socialProfiles p co, 0⟩ ∧
    (env.google = .exn → ∀ st, runGoogleSt env st = st) ∧
    (∀ q rest st, env.subpage q = .exn →
      subpagesSt env (q :: rest) st = subpagesSt env rest st) ∧
    (∀ n rest st, env.directory n = .exn →
      directoriesSt env (n :: rest) st = directoriesSt env rest st) ∧
    (env.ddg = .exn → ∀ st, runDdgSt env st = st) := by
  refine ⟨?_, ?_, ?_, ?_, ?_⟩
  · unfold searchContactFallback finalSt stAfterDirectories stAfterSubpages
      stAfterGoogle runDirectoriesSt
    rw [runGoogleSt_safe env initSt hg, subpagesSt_safe env subpagePaths initSt hs]
    rw [if_neg (by rw [show initSt.bestPhone = none from rfl]; simp)]
    rw [directoriesSt_safe env directoryNames initSt hd,
      runDdgSt_safe env initSt hq, mkContactInfo_init]
  · intro hexn st
    unfold runGoogleSt
    rw [hexn]
  · intro q rest st hexn
    by_cases hsome : st.bestPhone.isSome = true
    · rw [subpagesSt_stop env (q :: rest) st hsome,
        subpagesSt_stop env rest st hsome]
    · have hstep : subpageStep env st q = st := by
        unfold subpageStep
        rw [hexn]
      show (if st.bestPhone.isSome then st
        else subpagesSt env rest (subpageStep env st q)) = subpagesSt env rest st
      rw [if_neg hsome, hstep]
  · intro n rest st hexn
    by_cases hsome : st.bestPhone.isSome = true
    · rw [directoriesSt_stop env (n :: rest) st hsome,
        directoriesSt_stop env rest st hsome]
    · have hstep : directoryStep env st n = st := by
        unfold directoryStep
        rw [hexn]
      show (if st.bestPhone.isSome then st
        else directoriesSt env rest (directoryStep env st n)) =
          directoriesSt env rest st
      rw [if_neg hsome, hstep]
  · intro hexn st
    unfold runDdgSt
    split_ifs with hsome
    · rfl
    · rw [hexn]

theorem c8_source_isolation_witness :
    searchContactFallback scrapeEnvEmpty "Jane Doe" "Acme Corp" =
      ⟨none, "low", none, socialProfiles "Jane Doe" "Acme Corp", 0⟩ :=
  (c8_source_isolation scrapeEnvEmpty "Jane Doe" "Acme Corp" (by decide)
    (by decide) (by decide) (by decide)).1

/-- Claim C9: once a tier holds a best phone, no source of any later
tier is fetched or contributes candidates, so the returned phone and
source come from the earliest tier that produced a valid candidate. -/
theorem c9_tier_short_circuit (env : ScrapeEnv) (p co : String) :
    ((stAfterGoogle env).bestPhone.isSome = true →
      subpagesLog env subpagePaths (stAfterGoogle env) = [] ∧
      runDirectoriesLog env (stAfterSubpages env) = [] ∧
      runDdgLog env (stAfterDirectories env) = [] ∧
      finalSt env = stAfterGoogle env ∧
      (searchContactFallback env p co).phone = (stAfterGoogle env).bestPhone ∧
      (searchContactFallback env p co).source = (stAfterGoogle env).bestSource) ∧
    ((stAfterSubpages env).bestPhone.isSome = true →
      runDirectoriesLog env (stAfterSubpages env) = [] ∧
      runDdgLog env (stAfterDirectories env) = [] ∧
      finalSt env = stAfterSubpages env ∧
      (searchContactFallback env p co).phone = (stAfterSubpages env).bestPhone ∧
      (searchContactFallback env p co).source =
        (stAfterSubpages env).bestSource) ∧
    ((stAfterDirectories env).bestPhone.isSome = true →
      runDdgLog env (stAfterDirectories env) = [] ∧
      finalSt env = stAfterDirectories env ∧
      (searchContactFallback env p co).phone =
        (stAfterDirectories env).bestPhone ∧
      (searchContactFallback env p co).source =
        (stAfterDirectories env).bestSource) := by
  have part3 : (stAfterDirectories env).bestPhone.isSome = true →
      runDdgLog env (stAfterDirectories env) = [] ∧
      finalSt env = stAfterDirectories env ∧
      (searchContactFallback env p co).phone =
        (stAfterDirectories env).bestPhone ∧
      (searchContactFallback env p co).source =
        (stAfterDirectories env).bestSource := by
    intro h3
    have hddg : runDdgSt env (stAfterDirectories env) = stAfterDirectories env := by
      unfold runDdgSt
      rw [if_pos h3]
    have hfin : finalSt env = stAfterDirectories env := by
      unfold finalSt
      rw [hddg]
    refine ⟨?_, hfin, ?_, ?_⟩
    · unfold runDdgLog
      rw [if_pos h3]
    · unfold searchContactFallback mkContactInfo
      rw [hfin]
    · unfold searchContactFallback mkContactInfo
      rw [hfin]
  have part2 : (stAfterSubpages env).bestPhone.isSome = true →
      runDirectoriesLog env (stAfterSubpages env) = [] ∧
      runDdgLog env (stAfterDirectories env) = [] ∧
      finalSt env = stAfterSubpages env ∧
      (searchContactFallback env p co).phone = (stAfterSubpages env).bestPhone ∧
      (searchContactFallback env p co).source =
        (stAfterSubpages env).bestSource := by
    intro h2
    have hdir : stAfterDirectories env = stAfterSubpages env := by
      unfold stAfterDirectories runDirectoriesSt
      rw [if_pos h2]
    have h3 : (stAfterDirectories env).bestPhone.isSome = true := by
      rw [hdir]
      exact h2
    obtain ⟨hlog, hfin, hph, hsrc⟩ := part3 h3
    refine ⟨?_, hlog, ?_, ?_, ?_⟩
    · unfold runDirectoriesLog
      rw [if_pos h2]
    · rw [hfin, hdir]
    · rw [hph, hdir]
    · rw [hsrc, hdir]
  refine ⟨?_, part2, part3⟩
  intro h1
  have hsub : stAfterSubpages env = stAfterGoogle env := by
    unfold stAfterSubpages
    exact subpagesSt_stop env subpagePaths (stAfterGoogle env) h1
  have h2 : (stAfterSubpages env).bestPhone.isSome = true := by
    rw [hsub]
    exact h1
  obtain ⟨hdlog, hqlog, hfin, hph, hsrc⟩ := part2 h2
  refine ⟨subpagesLog_stop env subpagePaths (stAfterGoogle env) h1,
    hdlog, hqlog, ?_, ?_, ?_⟩
  · rw [hfin, hsub]
  · rw [hph, hsub]
  · rw [hsrc, hsub]

lemma extract_800 :
    extractCandidates "(800) 555-0100" =
      ["(800) 555-0100", "(800) 555-0100"] := by
  decide

lemma pp_init_800 :
    process_potential_phone initSt "(800) 555-0100" "Google Business" (9/10) =
      ⟨some "(800) 555-0100", 9/10 * (9/10), some "Google Business"⟩ := by
  simp only [process_potential_phone]
  rw [clean_800, validate_800]
  rw [if_pos ⟨rfl, by show (0:ℚ) < 9/10 * (9/10); norm_num⟩]

lemma stAfterGoogle_envG :
    stAfterGoogle scrapeEnvGoogle =
      ⟨some "(800) 555-0100", 9/10 * (9/10), some "Google Business"⟩ := by
  unfold stAfterGoogle runGoogleSt scrapeEnvGoogle
  dsimp only
  rw [if_pos rfl]
  show process_text initSt "(800) 555-0100" "Google Business" (9/10) = _
  unfold process_text
  rw [extract_800]
  show process_potential_phone
    (process_potential_phone initSt "(800) 555-0100" "Google Business" (9/10))
    "(800) 555-0100" "Google Business" (9/10) = _
  rw [pp_init_800]
  simp only [process_potential_phone]
  rw [clean_800, validate_800]
  rw [if_neg]
  rintro ⟨-, hlt⟩
  exact lt_irrefl _ hlt

lemma stAfterGoogle_envG_some :
    (stAfterGoogle scrapeEnvGoogle).bestPhone.isSome = true := by
  rw [stAfterGoogle_envG]
  rfl

theorem c9_tier_short_circuit_witness :
    subpagesLog scrapeEnvGoogle subpagePaths (stAfterGoogle scrapeEnvGoogle) = [] ∧
    runDirectoriesLog scrapeEnvGoogle (stAfterSubpages scrapeEnvGoogle) = [] ∧
    runDdgLog scrapeEnvGoogle (stAfterDirectories scrapeEnvGoogle) = [] ∧
    finalSt scrapeEnvGoogle = stAfterGoogle scrapeEnvGoogle ∧
    (searchContactFallback scrapeEnvGoogle "Jane Doe" "Acme Corp").phone =
      (stAfterGoogle scrapeEnvGoogle).bestPhone ∧
    (searchContactFallback scrapeEnvGoogle "Jane Doe" "Acme Corp").source =
      (stAfterGoogle scrapeEnvGoogle).bestSource :=
  (c9_tier_short_circuit scrapeEnvGoogle "Jane Doe" "Acme Corp").1
    stAfterGoogle_envG_some

/-- Claim C10 (counterexample): search_contact_info returns a
dictionary carrying the winning source name and the validation score,
but the person_info dictionary search_person returns has no source key
and no validation_score key at all: the claim that the externally
visible output contains all ResolvedContact fields is false. -/
theorem c10_output_fields_counterexample :
    (contact_info_dict ciSample).lookup "source" =
      some (PyVal.pyStr "Google Business") ∧
    (contact_info_dict ciSample).lookup "validation_score" =
      some (PyVal.pyNum (81/100)) ∧
    (search_person_dict "Jane Doe" "Acme Corp"
      (some (contact_info_dict ciSample))).lookup "source" = none ∧
    (search_person_dict "Jane Doe" "Acme Corp"
      (some (contact_info_dict ciSample))).lookup "validation_score" = none :=
  ⟨rfl, rfl, rfl, rfl⟩

/-- Claim C10 (amended): the value returned by search_person exposes
the phone, the confidence level and the social profiles (together with
name, company, position and email) read from the contact_info
dictionary, but not the winning source name and not the validation
score; those two fields exist only in the dictionary
search_contact_info builds and are dropped by the repackaging in
search_person. -/
theorem c10_output_fields_amended (p co : String)
    (ci : Option (List (String × PyVal))) :
    (search_person_dict p co ci).map Prod.fst =
      ["name", "company", "position", "email", "phone",
       "social_profiles", "confidence_score"] ∧
    (search_person_dict p co ci).lookup "source" = none ∧
    (search_person_dict p co ci).lookup "validation_score" = none ∧
    (search_person_dict p co ci).lookup "phone" =
      some (pyGet (ci.getD []) "phone" PyVal.pyNone) ∧
    (search_person_dict p co ci).lookup "confidence_score" =
      some (pyGet (ci.getD []) "confidence_score" (PyVal.pyStr "low")) ∧
    (search_person_dict p co ci).lookup "social_profiles" =
      some (pyGet (ci.getD []) "social_profiles" (PyVal.pyDict [])) ∧
    (∀ c : ContactInfo, (contact_info_dict c).map Prod.fst =
      ["phone", "confidence_score", "source", "social_profiles",
       "validation_score"]) :=
  ⟨rfl, rfl, rfl, rfl, rfl, rfl, fun _ => rfl⟩
